import Mathlib

/-!
Verification development for the Matrix-to-CRM interception backend.

The definitions below are a shallow embedding of the Python sources under
src/backend: the stateful handlers of MatrixClient (matrix_client.py) become
pure Lean functions over explicit state and explicit oracles for the external
network calls, and the FastAPI startup hook (main.py) becomes a function from
the configured access token to the resulting application state.  Names follow
the Python sources where the Lean lexer allows it.
-/

namespace AdaireChat

/-! ## Data model

Shallow embedding of the event and room shapes that matrix_client.py reads.
Duck-typed optional attributes of the Python objects (hasattr / getattr with a
default) are modelled as Option fields: none means the attribute is absent.
-/

structure MatrixRoom where
  room_id : String
  display_name : Option String
  encrypted : Bool
deriving Repr, DecidableEq

structure RoomMessageText where
  event_id : String
  sender : String
  body : String
  server_timestamp : Nat
  msgtype : Option String
  formatted_body : Option String
  decrypted : Option Bool
deriving Repr, DecidableEq

structure MegolmEvent where
  event_id : String
  sender : String
  session_id : Option String
  sender_key : Option String
deriving Repr, DecidableEq

/-- Result object of a successful decrypt_megolm_event call that carries a
body attribute (matrix_client.py line 258 checks hasattr for body). -/
structure DecryptedEvent where
  event_id : String
  sender : String
  body : String
  server_timestamp : Nat
deriving Repr, DecidableEq

/-- The message_data dict built by _on_message (lines 600 to 611) and by
_on_encrypted (lines 260 to 270).  Keys present on only one of the two paths
are Option fields left none on the other path. -/
structure MessageData where
  event_id : String
  room_id : String
  sender : String
  body : String
  message_type : String
  timestamp : Nat
  room_name : String
  msgtype : Option String
  formatted_body : Option String
  decrypted : Bool
  encrypted_event_id : Option String
deriving Repr, DecidableEq

/-- room.display_name or room.room_id, with Python falsiness of the empty
string. -/
def roomName (room : MatrixRoom) : String :=
  match room.display_name with
  | some s => if s = "" then room.room_id else s
  | none => room.room_id

/-! ## Callback registry

A registered callback is identified by a number and modelled by the predicate
saying on which records its invocation raises an exception. -/

structure Callback where
  cid : Nat
  raises : MessageData → Bool

/-- The callback loop of _on_message (lines 622 to 627): each call is wrapped
in its own try/except, so every registered callback is invoked.  Returns the
ids of the callbacks that received the record. -/
def runCallbacksIsolated (cbs : List Callback) (_md : MessageData) : List Nat :=
  cbs.map (fun c => c.cid)

/-- The callback loop of _on_encrypted (lines 275 to 276): no per-callback
try/except, so the first raising callback aborts the loop and the exception
escapes to the outer handler of _on_encrypted.  Returns the ids of the
callbacks that were invoked and whether an exception escaped the loop. -/
def runCallbacksUnprotected : List Callback → MessageData → List Nat × Bool
  | [], _ => ([], false)
  | c :: rest, md =>
    if c.raises md then ([c.cid], true)
    else
      let r := runCallbacksUnprotected rest md
      (c.cid :: r.1, r.2)

/-! ## Plaintext path: _on_message (matrix_client.py lines 587 to 630) -/

inductive OnMessageResult where
  | dropped_self
  | dropped_unencrypted
  | delivered (md : MessageData) (invoked : List Nat)
deriving Repr, DecidableEq

/-- The message_data dict built on the plaintext path (lines 600 to 611). -/
def plainMessageData (room : MatrixRoom) (event : RoomMessageText) : MessageData :=
  { event_id := event.event_id
    room_id := room.room_id
    sender := event.sender
    body := event.body
    message_type := "m.room.message"
    timestamp := event.server_timestamp
    room_name := roomName room
    msgtype := some (event.msgtype.getD "m.text")
    formatted_body := event.formatted_body
    decrypted := event.decrypted.getD false
    encrypted_event_id := none }

/-- Embedding of _on_message: drop own messages (line 591), drop unencrypted
messages in encrypted rooms (line 595, hasattr check on the decrypted
attribute), otherwise build the record and invoke every callback with
per-callback exception isolation. -/
def on_message (ownUserId : String) (cbs : List Callback) (room : MatrixRoom)
    (event : RoomMessageText) : OnMessageResult :=
  if event.sender = ownUserId then OnMessageResult.dropped_self
  else if room.encrypted && event.decrypted.isNone then OnMessageResult.dropped_unencrypted
  else
    let md := plainMessageData room event
    OnMessageResult.delivered md (runCallbacksIsolated cbs md)

def invokedOf : OnMessageResult → List Nat
  | OnMessageResult.delivered _ invoked => invoked
  | _ => []

def recordOf : OnMessageResult → Option MessageData
  | OnMessageResult.delivered md _ => some md
  | _ => none

/-! ## Key recovery: _request_missing_keys (lines 286 to 363) and
_import_recovery_key_if_exists (lines 212 to 243) -/

inductive RecoveryAction where
  | requestRoomKey
  | keysQuery
  | toDeviceKeyRequest (device_id : String)
  | createChannel
deriving Repr, DecidableEq

/-- Embedding of _request_missing_keys.  The external keys_query outcome is an
oracle: none models a raised exception or a response without device_keys, and
some devices models the device list the response holds for the sender.  The
createChannel constructor exists in the action alphabet so that its absence
from every run is a statable fact: the routine never creates a channel. -/
def request_missing_keys (clientPresent : Bool) (_event : MegolmEvent)
    (_room : MatrixRoom) (queryOutcome : Option (List String)) : List RecoveryAction :=
  if clientPresent then
    RecoveryAction.requestRoomKey ::
      (match queryOutcome with
       | none => []
       | some devices =>
           RecoveryAction.keysQuery ::
             (if devices = [] then []
              else devices.map RecoveryAction.toDeviceKeyRequest))
  else []

inductive ImportAction where
  | unlockSecretStorage
  | downloadBackup
  | restoreKeys
deriving Repr, DecidableEq

/-- Embedding of _import_recovery_key_if_exists.  The routine reads only the
configured recovery key and the remote store (oracles unlockOk and
backupCount); it keeps no applied flag of any kind, so each invocation with a
configured key attempts the unlock again. -/
def apply_recovery_key_if_exists (recovery_key : Option String) (unlockOk : Bool)
    (backupCount : Nat) : List ImportAction :=
  match recovery_key with
  | none => []
  | some _ =>
      ImportAction.unlockSecretStorage ::
        (if unlockOk then
          ImportAction.downloadBackup ::
            (if backupCount = 0 then [] else [ImportAction.restoreKeys])
        else [])

/-! ## Encrypted path: _on_encrypted (lines 245 to 284) -/

/-- Outcome of one call to client.crypto.decrypt_megolm_event: the call can
raise, return a value without a usable body (falsy value or no body
attribute), or return a decrypted event. -/
inductive DecryptOutcome where
  | raises
  | returnsNoBody
  | returns (d : DecryptedEvent)
deriving Repr, DecidableEq

/-- Observable trace of one _on_encrypted invocation. -/
structure EncTrace where
  recoveryInvocations : Nat
  decryptAttempts : Nat
  delivered : Option MessageData
  invoked : List Nat
  callbackEscaped : Bool
  recoveryActions : List RecoveryAction

/-- The message_data dict built on the decrypted path (lines 260 to 270). -/
def encMessageData (room : MatrixRoom) (event : MegolmEvent) (d : DecryptedEvent) :
    MessageData :=
  { event_id := d.event_id
    room_id := room.room_id
    sender := d.sender
    body := d.body
    message_type := "m.room.message"
    timestamp := d.server_timestamp
    room_name := roomName room
    msgtype := none
    formatted_body := none
    decrypted := true
    encrypted_event_id := some event.event_id }

def deliverDecrypted (cbs : List Callback) (room : MatrixRoom) (event : MegolmEvent)
    (d : DecryptedEvent) (recoveryInvocations decryptAttempts : Nat) : EncTrace :=
  let md := encMessageData room event d
  let r := runCallbacksUnprotected cbs md
  { recoveryInvocations := recoveryInvocations
    decryptAttempts := decryptAttempts
    delivered := some md
    invoked := r.1
    callbackEscaped := r.2
    recoveryActions := [] }

/-- Embedding of _on_encrypted.  attempt1 and attempt2 are the outcomes of the
first decryption call (line 252) and of the retry after the recovery-key
routine (line 256); queryOutcome is the oracle for _request_missing_keys.
When the first attempt raises, the recovery-key routine is invoked once and
the decryption retried once; if the retry raises, the exception reaches the
outer handler (line 283) and nothing further happens for this event.  A
returned value without a body goes to _request_missing_keys (line 281).
No sender check occurs anywhere on this path. -/
def on_encrypted (cbs : List Callback) (room : MatrixRoom) (event : MegolmEvent)
    (attempt1 attempt2 : DecryptOutcome) (queryOutcome : Option (List String)) : EncTrace :=
  match attempt1 with
  | DecryptOutcome.returns d => deliverDecrypted cbs room event d 0 1
  | DecryptOutcome.returnsNoBody =>
      { recoveryInvocations := 0
        decryptAttempts := 1
        delivered := none
        invoked := []
        callbackEscaped := false
        recoveryActions := request_missing_keys true event room queryOutcome }
  | DecryptOutcome.raises =>
      match attempt2 with
      | DecryptOutcome.returns d => deliverDecrypted cbs room event d 1 2
      | DecryptOutcome.returnsNoBody =>
          { recoveryInvocations := 1
            decryptAttempts := 2
            delivered := none
            invoked := []
            callbackEscaped := false
            recoveryActions := request_missing_keys true event room queryOutcome }
      | DecryptOutcome.raises =>
          { recoveryInvocations := 1
            decryptAttempts := 2
            delivered := none
            invoked := []
            callbackEscaped := false
            recoveryActions := [] }

/-- Strict sequential processing of a list of encrypted events, each with its
own pair of decryption outcomes: the sync engine dispatches them one by one
and each _on_encrypted call returns normally (its outer handler swallows any
exception), so every event gets a trace.  The handler carries no state across
events. -/
def processEncrypted (cbs : List Callback) (room : MatrixRoom)
    (queryOutcome : Option (List String))
    (evs : List (MegolmEvent × DecryptOutcome × DecryptOutcome)) : List EncTrace :=
  evs.map (fun t => on_encrypted cbs room t.1 t.2.1 t.2.2 queryOutcome)

def totalRecoveryInvocations (traces : List EncTrace) : Nat :=
  (traces.map (fun t => t.recoveryInvocations)).sum

/-! ## Sync engine: _start_syncing (lines 491 to 585), __init__ (lines 25 to
32), close (lines 714 to 736) -/

/-- The MatrixClient state the sync loop touches: the syncing flag and the
_sync_token attribute.  The token lives only in this in-memory object. -/
structure SyncState where
  syncing : Bool
  sync_token : Option String
deriving Repr, DecidableEq

/-- __init__ sets syncing to False (line 27) and _sync_token to None
(line 29). -/
def initState : SyncState :=
  { syncing := false, sync_token := none }

/-- A process restart constructs a fresh MatrixClient, so whatever the old
in-memory state held is gone. -/
def restart (_ : SyncState) : SyncState := initState

/-- close (lines 714 to 718) clears the syncing flag. -/
def close (st : SyncState) : SyncState :=
  { st with syncing := false }

/-- The since argument of the next client.sync call (line 505). -/
def sinceParam (st : SyncState) : Option String := st.sync_token

/-- Decoded view of one sync response: the next_batch value found through the
duck-typed probes (lines 511 to 527; none when absent under every probe), and
the ids of joined rooms whose timelines hold events (those for which
_process_room_events runs). -/
structure SyncResponse where
  next_batch : Option String
  joined_rooms : List String
deriving Repr, DecidableEq

/-- Outcome of one client.sync call in the loop body. -/
inductive SyncOutcome where
  | response (r : SyncResponse)
  | empty
  | cancelled
  | failure
deriving Repr, DecidableEq

/-- Action alphabet of one loop round.  persistCursor is in the alphabet so
that its absence from every trace is a statable fact: the loop never performs
a durable cursor write. -/
inductive SyncStep where
  | updateToken (t : String)
  | persistCursor (t : String)
  | processEvents (room_id : String)
  | sleep (secs : Nat)
  | exitLoop
deriving Repr, DecidableEq

/-- Lines 529 to 533: the in-memory token is replaced only when next_batch is
truthy (a present, non-empty string). -/
def applyNextBatch (st : SyncState) (nb : Option String) : SyncState :=
  match nb with
  | some s => if s = "" then st else { st with sync_token := some s }
  | none => st

def nextBatchSteps (nb : Option String) : List SyncStep :=
  match nb with
  | some s => if s = "" then [] else [SyncStep.updateToken s]
  | none => []

/-- One round of the while loop (lines 500 to 585): on a response, update the
token first (lines 529 to 533), then process each joined room with timeline
events (lines 536 to 571), then sleep 5 seconds (line 577); on a falsy
response, just sleep 5; on CancelledError, break out of the loop (lines 579
to 581); on any other exception, sleep 30 and continue (lines 582 to 585).
Returns the state after the round and the trace of actions. -/
def syncRound (st : SyncState) (o : SyncOutcome) : SyncState × List SyncStep :=
  match o with
  | SyncOutcome.cancelled => (st, [SyncStep.exitLoop])
  | SyncOutcome.failure => (st, [SyncStep.sleep 30])
  | SyncOutcome.empty => (st, [SyncStep.sleep 5])
  | SyncOutcome.response r =>
      (applyNextBatch st r.next_batch,
       nextBatchSteps r.next_batch ++ r.joined_rooms.map SyncStep.processEvents
         ++ [SyncStep.sleep 5])

/-- The while condition of the loop (line 500): self.syncing and self.client. -/
def loopRuns (st : SyncState) (clientPresent : Bool) : Bool :=
  st.syncing && clientPresent

/-! ## Room creation: create_encrypted_room (lines 365 to 400) and
create_room (lines 682 to 699) -/

structure StateEvent where
  type : String
  state_key : String
  content : List (String × String)
deriving Repr, DecidableEq

/-- The request create_encrypted_room builds and create_room forwards to
client.room_create. -/
structure RoomCreateRequest where
  name : String
  invite : List String
  initial_state : List StateEvent
  power_level_users : List (String × Nat)
deriving Repr, DecidableEq

/-- Python dict semantics for the power_level_content_override users dict:
entries listed later override earlier ones with the same key. -/
def dictLookup : List (String × Nat) → String → Option Nat
  | [], _ => none
  | p :: rest, u =>
      match dictLookup rest u with
      | some w => some w
      | none => if p.1 = u then some p.2 else none

def encryptionStateEvent : StateEvent :=
  { type := "m.room.encryption"
    state_key := ""
    content := [("algorithm", "m.megolm.v1.aes-sha2")] }

def historyVisibilityStateEvent : StateEvent :=
  { type := "m.room.history_visibility"
    state_key := ""
    content := [("history_visibility", "shared")] }

/-- Embedding of create_encrypted_room: the initial_state of the creation
request carries the encryption state event (lines 371 to 386), and the power
level dict grants the own user 100 and each invitee 50 (lines 387 to 392);
create_room (lines 689 to 693) passes invitees or the empty list as the
invite list and forwards the rest unchanged. -/
def create_encrypted_room (ownUserId name : String) (invitees : Option (List String)) :
    RoomCreateRequest :=
  { name := name
    invite := invitees.getD []
    initial_state := [encryptionStateEvent, historyVisibilityStateEvent]
    power_level_users :=
      (ownUserId, 100) :: (invitees.getD []).map (fun u => (u, 50)) }

/-! ## Startup: the access-token check of MatrixClient (lines 74 to 80) and
the startup hook of main.py (lines 112 to 141) -/

/-- Lines 74 to 80: with a truthy access token the client fields are set;
otherwise a ValueError is raised, which the outer handler of the method
re-raises after clearing the initialized flag (lines 118 to 121). -/
def tokenCheck (access_token : String) : Except String Unit :=
  if access_token = "" then Except.error "Access token required" else Except.ok ()

structure InitOutcome where
  client_initialized : Bool
  raised : Option String
deriving Repr, DecidableEq

def clientInitOutcome (access_token : String) : InitOutcome :=
  match tokenCheck access_token with
  | Except.ok _ => { client_initialized := true, raised := none }
  | Except.error e => { client_initialized := false, raised := some e }

structure AppState where
  matrix_initialized : Bool
  app_running : Bool
deriving Repr, DecidableEq

/-- Embedding of the startup hook of main.py: every exception thrown while
setting up the Matrix client is caught and logged (lines 137 to 140), and the
web application keeps serving either way. -/
def startup_event (access_token : String) : AppState :=
  let r := clientInitOutcome access_token
  { matrix_initialized := r.client_initialized, app_running := true }

/-! ## Concrete fixtures used by witnesses and counterexamples -/

def room0 : MatrixRoom :=
  { room_id := "!room1:hs", display_name := some "Support", encrypted := true }

def plainRoom : MatrixRoom :=
  { room_id := "!plain:hs", display_name := some "General", encrypted := false }

def roomDirect : MatrixRoom :=
  { room_id := "!direct:hs", display_name := some "Alice", encrypted := true }

def megolm_self : MegolmEvent :=
  { event_id := "$enc1", sender := "@bot:hs", session_id := some "sess1",
    sender_key := some "skey1" }

def decrypted_self : DecryptedEvent :=
  { event_id := "$enc1", sender := "@bot:hs", body := "note to self",
    server_timestamp := 1000 }

def megolm_other : MegolmEvent :=
  { event_id := "$enc2", sender := "@alice:server", session_id := some "sess2",
    sender_key := some "skey2" }

def decrypted_other : DecryptedEvent :=
  { event_id := "$enc2", sender := "@alice:server", body := "hi",
    server_timestamp := 1001 }

def alice_ev1 : MegolmEvent :=
  { event_id := "$a1", sender := "@alice:server", session_id := some "sessA",
    sender_key := some "skeyA" }

def alice_ev2 : MegolmEvent :=
  { event_id := "$a2", sender := "@alice:server", session_id := some "sessA",
    sender_key := some "skeyA" }

def alice_ev3 : MegolmEvent :=
  { event_id := "$a3", sender := "@alice:server", session_id := some "sessA",
    sender_key := some "skeyA" }

def plain_other : RoomMessageText :=
  { event_id := "$p1", sender := "@alice:server", body := "ping",
    server_timestamp := 1002, msgtype := some "m.text", formatted_body := none,
    decrypted := none }

def plain_self : RoomMessageText :=
  { event_id := "$p2", sender := "@bot:hs", body := "pong",
    server_timestamp := 1003, msgtype := some "m.text", formatted_body := none,
    decrypted := none }

def okCallback : Callback := { cid := 0, raises := fun _ => false }

def okCallback1 : Callback := { cid := 1, raises := fun _ => false }

def raisingCallback : Callback := { cid := 0, raises := fun _ => true }

/-- Three consecutive undecryptable events from the same direct-channel
counterparty: each first decryption attempt raises and each retry returns an
unusable value. -/
def aliceBurst : List (MegolmEvent × DecryptOutcome × DecryptOutcome) :=
  [(alice_ev1, DecryptOutcome.raises, DecryptOutcome.returnsNoBody),
   (alice_ev2, DecryptOutcome.raises, DecryptOutcome.returnsNoBody),
   (alice_ev3, DecryptOutcome.raises, DecryptOutcome.returnsNoBody)]

/-! ## Claim C1 -/

/-- Claim C1 counterexample: the claim states that a self-originated event
never produces a record and never reaches a callback on either path.  Taking
the agent identity to be the user id at address bot:hs, a Megolm event sent
by that very identity that decrypts successfully produces an Inbound Message
Record and invokes the registered callback, because _on_encrypted performs no
sender check at all. -/
theorem C1_counterexample :
    megolm_self.sender = "@bot:hs" ∧
    decrypted_self.sender = "@bot:hs" ∧
    (on_encrypted [okCallback] room0 megolm_self
        (DecryptOutcome.returns decrypted_self) DecryptOutcome.raises none).delivered =
      some (encMessageData room0 megolm_self decrypted_self) ∧
    (on_encrypted [okCallback] room0 megolm_self
        (DecryptOutcome.returns decrypted_self) DecryptOutcome.raises none).invoked = [0] :=
  ⟨rfl, rfl, rfl, rfl⟩

/-- Claim C1 amended: self-message suppression holds on the plaintext path
(_on_message drops any event whose sender equals the own user id before
building a record), but the encrypted path has no sender check: every
successfully decrypted Megolm event, self-originated or not, produces a
record that is handed to the callbacks. -/
theorem C1_self_suppression_plaintext_only (ownUserId : String) (cbs : List Callback)
    (room : MatrixRoom) (event : RoomMessageText) (h : event.sender = ownUserId) :
    on_message ownUserId cbs room event = OnMessageResult.dropped_self ∧
    ∀ (cbs2 : List Callback) (room2 : MatrixRoom) (mev : MegolmEvent)
      (d : DecryptedEvent) (a2 : DecryptOutcome) (q : Option (List String)),
      (on_encrypted cbs2 room2 mev (DecryptOutcome.returns d) a2 q).delivered =
        some (encMessageData room2 mev d) := by
  constructor
  · simp [on_message, h]
  · intro cbs2 room2 mev d a2 q
    rfl

/-- Witness for the amended claim C1 at a concrete self-sent plaintext
message. -/
theorem C1_self_suppression_witness :
    on_message "@bot:hs" [okCallback] plainRoom plain_self = OnMessageResult.dropped_self :=
  (C1_self_suppression_plaintext_only "@bot:hs" [okCallback] plainRoom plain_self rfl).1

/-! ## Claim C3 -/

/-- Claim C3 counterexample: with the raising callback registered first (id 0)
and a second callback registered after it (id 1), a successfully decrypted
event reaches only callback 0: the exception aborts the loop in _on_encrypted
before callback 1 runs, refuting the claim on the decrypted-message path. -/
theorem C3_counterexample :
    (on_encrypted [raisingCallback, okCallback1] room0 megolm_other
        (DecryptOutcome.returns decrypted_other) DecryptOutcome.raises none).invoked = [0] ∧
    (1 : Nat) ∉ (on_encrypted [raisingCallback, okCallback1] room0 megolm_other
        (DecryptOutcome.returns decrypted_other) DecryptOutcome.raises none).invoked := by
  constructor
  · rfl
  · decide

/-- Claim C3 amended: callback isolation holds on the plaintext path, where
every registered callback is invoked for the record regardless of exceptions;
on the decrypted path a raising callback prevents the callbacks registered
after it from receiving that record, although the outer handler keeps the
pipeline alive, so subsequent events are still processed independently. -/
theorem C3_isolation_plaintext_only (ownUserId : String) (cbs : List Callback)
    (room : MatrixRoom) (event : RoomMessageText)
    (hs : event.sender ≠ ownUserId) (hroom : room.encrypted = false) :
    invokedOf (on_message ownUserId cbs room event) = cbs.map (fun c => c.cid) ∧
    (∀ (c : Callback) (rest : List Callback) (md : MessageData),
        c.raises md = true → (runCallbacksUnprotected (c :: rest) md).1 = [c.cid]) ∧
    (∀ (q : Option (List String))
        (evs1 evs2 : List (MegolmEvent × DecryptOutcome × DecryptOutcome)),
        processEncrypted cbs room q (evs1 ++ evs2) =
          processEncrypted cbs room q evs1 ++ processEncrypted cbs room q evs2) := by
  refine ⟨?_, ?_, ?_⟩
  · simp [on_message, hs, hroom, invokedOf, runCallbacksIsolated]
  · intro c rest md hc
    simp [runCallbacksUnprotected, hc]
  · intro q evs1 evs2
    simp [processEncrypted]

/-- Witness for the amended claim C3: on the plaintext path both callbacks,
including the one after the raiser, receive the record. -/
theorem C3_isolation_witness :
    invokedOf (on_message "@bot:hs" [raisingCallback, okCallback1] plainRoom plain_other)
      = [0, 1] := by
  have h := (C3_isolation_plaintext_only "@bot:hs" [raisingCallback, okCallback1]
    plainRoom plain_other (by decide) rfl).1
  simpa [raisingCallback, okCallback1] using h

/-! ## Claim C4 -/

/-- Claim C4: when the first decryption attempt raises, _on_encrypted invokes
the recovery-key routine exactly once and retries decryption exactly once
more; if the retry also fails (raises, or yields a value without a body), no
Inbound Message Record is emitted for the event and no callback is invoked. -/
theorem C4_single_recovery_and_retry (cbs : List Callback) (room : MatrixRoom)
    (event : MegolmEvent) (attempt2 : DecryptOutcome) (q : Option (List String)) :
    (on_encrypted cbs room event DecryptOutcome.raises attempt2 q).recoveryInvocations = 1 ∧
    (on_encrypted cbs room event DecryptOutcome.raises attempt2 q).decryptAttempts = 2 ∧
    ((attempt2 = DecryptOutcome.raises ∨ attempt2 = DecryptOutcome.returnsNoBody) →
      (on_encrypted cbs room event DecryptOutcome.raises attempt2 q).delivered = none ∧
      (on_encrypted cbs room event DecryptOutcome.raises attempt2 q).invoked = []) := by
  refine ⟨?_, ?_, ?_⟩
  · cases attempt2 <;> rfl
  · cases attempt2 <;> rfl
  · rintro (h | h) <;> subst h <;> exact ⟨rfl, rfl⟩

/-- Witness for claim C4 at a concrete event whose retry raises as well. -/
theorem C4_witness :
    (on_encrypted [okCallback] roomDirect alice_ev1 DecryptOutcome.raises
        DecryptOutcome.raises none).recoveryInvocations = 1 ∧
    (on_encrypted [okCallback] roomDirect alice_ev1 DecryptOutcome.raises
        DecryptOutcome.raises none).decryptAttempts = 2 ∧
    (on_encrypted [okCallback] roomDirect alice_ev1 DecryptOutcome.raises
        DecryptOutcome.raises none).delivered = none ∧
    (on_encrypted [okCallback] roomDirect alice_ev1 DecryptOutcome.raises
        DecryptOutcome.raises none).invoked = [] := by
  have h := C4_single_recovery_and_retry [okCallback] roomDirect alice_ev1
    DecryptOutcome.raises none
  exact ⟨h.1, h.2.1, (h.2.2 (Or.inl rfl)).1, (h.2.2 (Or.inl rfl)).2⟩

/-! ## Claim C10 -/

/-- Claim C10: a plaintext text message arriving in an encrypted room without
a decrypted attribute is silently dropped by _on_message, with no record and
no callback invocation, even when the sender is not the agent. -/
theorem C10_plaintext_in_encrypted_room_dropped (ownUserId : String)
    (cbs : List Callback) (room : MatrixRoom) (event : RoomMessageText)
    (he : room.encrypted = true) (hd : event.decrypted = none)
    (hs : event.sender ≠ ownUserId) :
    on_message ownUserId cbs room event = OnMessageResult.dropped_unencrypted ∧
    recordOf (on_message ownUserId cbs room event) = none ∧
    invokedOf (on_message ownUserId cbs room event) = [] := by
  have hres : on_message ownUserId cbs room event = OnMessageResult.dropped_unencrypted := by
    simp [on_message, hs, he, hd]
  exact ⟨hres, by rw [hres]; rfl, by rw [hres]; rfl⟩

/-- Witness for claim C10 at a concrete non-self plaintext message in an
encrypted room. -/
theorem C10_witness :
    on_message "@bot:hs" [okCallback] room0 plain_other = OnMessageResult.dropped_unencrypted ∧
    recordOf (on_message "@bot:hs" [okCallback] room0 plain_other) = none ∧
    invokedOf (on_message "@bot:hs" [okCallback] room0 plain_other) = [] :=
  C10_plaintext_in_encrypted_room_dropped "@bot:hs" [okCallback] room0 plain_other
    rfl rfl (by decide)

/-! ## Claim C2 -/

/-- Claim C2 counterexample: a round that consumes cursor c1 and returns
cursor c2 only replaces the in-memory _sync_token attribute; after a process
restart the fresh MatrixClient starts with _sync_token equal to None, so the
next sync call carries the empty cursor, not c2. -/
theorem C2_counterexample :
    (syncRound { syncing := true, sync_token := some "c1" }
        (SyncOutcome.response { next_batch := some "c2", joined_rooms := ["!room1:hs"] })).1.sync_token
      = some "c2" ∧
    sinceParam (restart (syncRound { syncing := true, sync_token := some "c1" }
        (SyncOutcome.response { next_batch := some "c2", joined_rooms := ["!room1:hs"] })).1)
      = none ∧
    (none : Option String) ≠ some "c2" := by
  refine ⟨rfl, rfl, ?_⟩
  simp

/-- Claim C2 amended: within one process run the returned cursor replaces the
in-memory token before any event of that round is processed, but the cursor
is never persisted (no round trace contains a persistCursor step), and a
restarted process issues its next sync request with the empty cursor rather
than the previously returned one. -/
theorem C2_cursor_in_memory_only (st : SyncState) (r : SyncResponse) (c2 : String)
    (hnb : r.next_batch = some c2) (hne : c2 ≠ "") :
    (syncRound st (SyncOutcome.response r)).1.sync_token = some c2 ∧
    (∀ (l1 : List SyncStep) (rm : String) (l2 : List SyncStep),
        (syncRound st (SyncOutcome.response r)).2 = l1 ++ SyncStep.processEvents rm :: l2 →
        SyncStep.updateToken c2 ∈ l1) ∧
    (∀ (st2 : SyncState) (o : SyncOutcome) (t : String),
        SyncStep.persistCursor t ∉ (syncRound st2 o).2) ∧
    sinceParam (restart (syncRound st (SyncOutcome.response r)).1) = none := by
  have hsteps : (syncRound st (SyncOutcome.response r)).2 =
      SyncStep.updateToken c2 ::
        (r.joined_rooms.map SyncStep.processEvents ++ [SyncStep.sleep 5]) := by
    simp [syncRound, nextBatchSteps, hnb, hne]
  refine ⟨?_, ?_, ?_, rfl⟩
  · simp [syncRound, applyNextBatch, hnb, hne]
  · intro l1 rm l2 hsplit
    rw [hsteps] at hsplit
    cases l1 with
    | nil => simp at hsplit
    | cons a t =>
      rw [List.cons_append] at hsplit
      injection hsplit with h1 h2
      rw [← h1]
      exact List.mem_cons_self _ _
  · intro st2 o t
    cases o with
    | response r2 =>
        rcases r2 with ⟨nb, rooms⟩
        cases nb with
        | none => simp [syncRound, nextBatchSteps]
        | some s =>
            by_cases hse : s = "" <;> simp [syncRound, nextBatchSteps, hse]
    | empty => simp [syncRound]
    | cancelled => simp [syncRound]
    | failure => simp [syncRound]

/-- Witness for the amended claim C2 at the concrete c1 to c2 scenario. -/
theorem C2_cursor_witness :
    (syncRound { syncing := true, sync_token := some "c1" }
        (SyncOutcome.response { next_batch := some "c2", joined_rooms := ["!r:hs"] })).1.sync_token
      = some "c2" ∧
    sinceParam (restart (syncRound { syncing := true, sync_token := some "c1" }
        (SyncOutcome.response { next_batch := some "c2", joined_rooms := ["!r:hs"] })).1)
      = none :=
  ⟨(C2_cursor_in_memory_only { syncing := true, sync_token := some "c1" }
      { next_batch := some "c2", joined_rooms := ["!r:hs"] } "c2" rfl (by decide)).1,
   (C2_cursor_in_memory_only { syncing := true, sync_token := some "c1" }
      { next_batch := some "c2", joined_rooms := ["!r:hs"] } "c2" rfl (by decide)).2.2.2⟩

/-! ## Claim C7 -/

/-- Claim C7: a transiently failing round leaves the whole sync state (cursor
included) unchanged, performs exactly one fixed 30-second sleep, and the loop
keeps running; a round requests loop exit only on task cancellation, and the
loop condition becomes false after close clears the syncing flag. -/
theorem C7_failure_retries (st : SyncState) (o : SyncOutcome) :
    (syncRound st SyncOutcome.failure).1 = st ∧
    (syncRound st SyncOutcome.failure).2 = [SyncStep.sleep 30] ∧
    (st.syncing = true → loopRuns (syncRound st SyncOutcome.failure).1 true = true) ∧
    (SyncStep.exitLoop ∈ (syncRound st o).2 → o = SyncOutcome.cancelled) ∧
    loopRuns (close st) true = false := by
  refine ⟨rfl, rfl, ?_, ?_, ?_⟩
  · intro h
    simp [syncRound, loopRuns, h]
  · intro hmem
    cases o with
    | response r2 =>
        rcases r2 with ⟨nb, rooms⟩
        exfalso
        cases nb with
        | none => simp [syncRound, nextBatchSteps] at hmem
        | some s =>
            by_cases hse : s = "" <;> simp [syncRound, nextBatchSteps, hse] at hmem
    | empty => simp [syncRound] at hmem
    | cancelled => rfl
    | failure => simp [syncRound] at hmem
  · simp [loopRuns, close]

/-- Witness for claim C7 at a concrete running state. -/
theorem C7_witness :
    (syncRound { syncing := true, sync_token := some "c1" } SyncOutcome.failure).1
      = { syncing := true, sync_token := some "c1" } ∧
    (syncRound { syncing := true, sync_token := some "c1" } SyncOutcome.failure).2
      = [SyncStep.sleep 30] ∧
    loopRuns (syncRound { syncing := true, sync_token := some "c1" }
        SyncOutcome.failure).1 true = true ∧
    SyncOutcome.cancelled = SyncOutcome.cancelled ∧
    loopRuns (close { syncing := true, sync_token := some "c1" }) true = false := by
  have h := C7_failure_retries { syncing := true, sync_token := some "c1" }
    SyncOutcome.cancelled
  exact ⟨h.1, h.2.1, h.2.2.1 rfl, h.2.2.2.1 (by simp [syncRound]), h.2.2.2.2⟩

/-! ## Claim C5 -/

/-- Claim C5 counterexample: after three consecutive undecryptable events from
the same direct-channel sender, the third event still triggers the full
key-request recovery routine (room-key request, key query, per-device
to-device requests) — it is not merely logged, because no per-sender counter
exists anywhere in the code. -/
theorem C5_counterexample :
    (processEncrypted [] roomDirect (some ["DEV1"]) aliceBurst).length = 3 ∧
    ((processEncrypted [] roomDirect (some ["DEV1"]) aliceBurst)[2]?).map
        (fun t => t.recoveryActions) =
      some [RecoveryAction.requestRoomKey, RecoveryAction.keysQuery,
            RecoveryAction.toDeviceKeyRequest "DEV1"] := by
  constructor <;> rfl

/-- Claim C5 amended: the code keeps no per-sender key-request counter and the
undecryptable path never creates a new encrypted channel at all (vacuously at
most twice); instead, every undecryptable event whose retried decryption
returns an unusable value triggers the same key-request recovery routine
again, without any bound on repetitions from one sender. -/
theorem C5_no_counter_no_channel (event : MegolmEvent) (room : MatrixRoom)
    (q : Option (List String)) (cbs : List Callback) (a1 : DecryptOutcome)
    (h : a1 = DecryptOutcome.raises ∨ a1 = DecryptOutcome.returnsNoBody) :
    RecoveryAction.createChannel ∉ request_missing_keys true event room q ∧
    (on_encrypted cbs room event a1 DecryptOutcome.returnsNoBody q).recoveryActions =
      request_missing_keys true event room q := by
  constructor
  · cases q with
    | none => simp [request_missing_keys]
    | some devices =>
        by_cases hd : devices = [] <;>
          simp [request_missing_keys, hd, List.mem_map]
  · rcases h with h | h <;> subst h <;> rfl

/-- Witness for the amended claim C5 at a concrete undecryptable event. -/
theorem C5_witness :
    RecoveryAction.createChannel ∉
      request_missing_keys true alice_ev3 roomDirect (some ["DEV1"]) ∧
    (on_encrypted [] roomDirect alice_ev3 DecryptOutcome.raises
        DecryptOutcome.returnsNoBody (some ["DEV1"])).recoveryActions =
      request_missing_keys true alice_ev3 roomDirect (some ["DEV1"]) :=
  C5_no_counter_no_channel alice_ev3 roomDirect (some ["DEV1"]) []
    DecryptOutcome.raises (Or.inl rfl)

/-! ## Claim C6 -/

/-- Claim C6 counterexample: two events in one run whose first decryption
attempt raises cause two invocations of the recovery-key routine, refuting
the claim that the unlock-and-restore step runs at most once per process
lifetime. -/
theorem C6_counterexample :
    totalRecoveryInvocations (processEncrypted [] roomDirect none
        [(alice_ev1, DecryptOutcome.raises, DecryptOutcome.raises),
         (alice_ev2, DecryptOutcome.raises, DecryptOutcome.raises)]) = 2 ∧
    1 < totalRecoveryInvocations (processEncrypted [] roomDirect none
        [(alice_ev1, DecryptOutcome.raises, DecryptOutcome.raises),
         (alice_ev2, DecryptOutcome.raises, DecryptOutcome.raises)]) := by
  constructor
  · rfl
  · decide

theorem recoveryInvocations_on_encrypted (cbs : List Callback) (room : MatrixRoom)
    (ev : MegolmEvent) (a1 a2 : DecryptOutcome) (q : Option (List String)) :
    (on_encrypted cbs room ev a1 a2 q).recoveryInvocations =
      (match a1 with | DecryptOutcome.raises => 1 | _ => 0) := by
  cases a1 <;> cases a2 <;> rfl

/-- Claim C6 amended: the recovery-key routine keeps no applied flag, so
within one process run it is invoked once per event whose first decryption
attempt raises — as many times as there are such events — and each invocation
with a configured recovery key attempts the secret-storage unlock again. -/
theorem C6_backup_restore_every_failure (cbs : List Callback) (room : MatrixRoom)
    (q : Option (List String))
    (evs : List (MegolmEvent × DecryptOutcome × DecryptOutcome))
    (k : String) (u : Bool) (n : Nat) :
    totalRecoveryInvocations (processEncrypted cbs room q evs) =
      evs.countP (fun t => decide (t.2.1 = DecryptOutcome.raises)) ∧
    ImportAction.unlockSecretStorage ∈ apply_recovery_key_if_exists (some k) u n := by
  constructor
  · induction evs with
    | nil => rfl
    | cons e t ih =>
        rcases e with ⟨ev, a1, a2⟩
        have hstep : totalRecoveryInvocations
            (processEncrypted cbs room q ((ev, a1, a2) :: t)) =
            (on_encrypted cbs room ev a1 a2 q).recoveryInvocations +
              totalRecoveryInvocations (processEncrypted cbs room q t) := by
          simp [processEncrypted, totalRecoveryInvocations]
        rw [hstep, recoveryInvocations_on_encrypted, ih, List.countP_cons]
        cases a1 <;> simp [Nat.add_comm]
  · simp [apply_recovery_key_if_exists]

/-! ## Claim C8 -/

/-- Claim C8 counterexample: with an empty access token the client-side check
raises and the client stays uninitialized, yet the startup hook of main.py
catches the exception, so the web application continues running with an
uninitialized Matrix client — startup does not abort. -/
theorem C8_counterexample :
    (clientInitOutcome "").raised = some "Access token required" ∧
    (startup_event "").matrix_initialized = false ∧
    (startup_event "").app_running = true :=
  ⟨rfl, rfl, rfl⟩

/-- Claim C8 amended: a missing (empty) access token makes initialization
raise a ValueError and leaves the client uninitialized, but the startup hook
swallows the exception and the process keeps serving with the uninitialized
client; with a non-empty token initialization completes. -/
theorem C8_token_error_swallowed (t : String) :
    tokenCheck "" = Except.error "Access token required" ∧
    clientInitOutcome ""
      = { client_initialized := false, raised := some "Access token required" } ∧
    startup_event "" = { matrix_initialized := false, app_running := true } ∧
    (t ≠ "" → startup_event t = { matrix_initialized := true, app_running := true }) := by
  refine ⟨rfl, rfl, rfl, ?_⟩
  intro h
  simp [startup_event, clientInitOutcome, tokenCheck, h]

/-- Witness for the amended claim C8 at a concrete non-empty token. -/
theorem C8_witness :
    tokenCheck "" = Except.error "Access token required" ∧
    startup_event "tok" = { matrix_initialized := true, app_running := true } :=
  ⟨(C8_token_error_swallowed "tok").1,
   (C8_token_error_swallowed "tok").2.2.2 (by decide)⟩

/-! ## Claim C9 -/

theorem dictLookup_invitees_not_mem (l : List String) (u : String) (hu : u ∉ l) :
    dictLookup (l.map (fun v => (v, 50))) u = none := by
  induction l with
  | nil => rfl
  | cons a t ih =>
      have h1 : u ∉ t := fun h => hu (List.mem_cons_of_mem _ h)
      have h2 : a ≠ u := fun h => hu (h ▸ List.mem_cons_self a t)
      simp [dictLookup, ih h1, h2]

theorem dictLookup_invitees_mem (l : List String) (u : String) (hu : u ∈ l) :
    dictLookup (l.map (fun v => (v, 50))) u = some 50 := by
  induction l with
  | nil => cases hu
  | cons a t ih =>
      by_cases h : u ∈ t
      · simp [dictLookup, ih h]
      · have ha : a = u := by
          rcases List.mem_cons.mp hu with h1 | h1
          · exact h1.symm
          · exact absurd h1 h
        simp [dictLookup, dictLookup_invitees_not_mem t u h, ha]

/-- Claim C9: every room built by create_encrypted_room carries the
m.room.encryption state event in the initial_state of the creation request
itself, and the power-level dict of that same request grants each invited
counterparty level 50 while the agent keeps level 100, so every counterparty
holds a strictly lesser privilege level than the agent. -/
theorem C9_encryption_at_creation (ownUserId name u : String)
    (invitees : Option (List String)) (hu : u ∈ invitees.getD [])
    (hself : ownUserId ∉ invitees.getD []) :
    encryptionStateEvent ∈ (create_encrypted_room ownUserId name invitees).initial_state ∧
    dictLookup (create_encrypted_room ownUserId name invitees).power_level_users u
      = some 50 ∧
    dictLookup (create_encrypted_room ownUserId name invitees).power_level_users ownUserId
      = some 100 ∧
    (50 : Nat) < 100 := by
  refine ⟨by simp [create_encrypted_room], ?_, ?_, by norm_num⟩
  · simp [create_encrypted_room, dictLookup,
      dictLookup_invitees_mem (invitees.getD []) u hu]
  · simp [create_encrypted_room, dictLookup,
      dictLookup_invitees_not_mem (invitees.getD []) ownUserId hself]

/-- Witness for claim C9 at a concrete creation request with one invited
counterparty. -/
theorem C9_witness :
    encryptionStateEvent ∈ (create_encrypted_room "@bot:hs" "CRM Chat"
        (some ["@alice:server"])).initial_state ∧
    dictLookup (create_encrypted_room "@bot:hs" "CRM Chat"
        (some ["@alice:server"])).power_level_users "@alice:server" = some 50 ∧
    dictLookup (create_encrypted_room "@bot:hs" "CRM Chat"
        (some ["@alice:server"])).power_level_users "@bot:hs" = some 100 ∧
    (50 : Nat) < 100 :=
  C9_encryption_at_creation "@bot:hs" "CRM Chat" "@alice:server"
    (some ["@alice:server"]) (by decide) (by decide)

end AdaireChat
